import Mathlib

/-!
Verification of the Yelp signup automation bot
(`backend/automation/yelp_signup_bot.py`) against its specification.

The bot is a straight-line Selenium script.  We embed it shallowly:

* the DOM is a `Page`: which selectors resolve to an element, which
  elements raise on interaction, and the option values of the `<select>`
  dropdowns;
* the browser-automation primitives (`find_element`, `wait.until`,
  `clear`, `send_keys`, `Select.select_by_value`, `driver.quit`, console
  prints, `json.dumps` output) are modelled as an event trace, and
  Python exceptions as an `Except` outcome, in the writer/exception
  monad `M`;
* `time.time()` is modelled by a start instant `t0` and a non-negative
  elapsed amount `dt` (wall-clock time is monotone);
* the text of messages raised by the Selenium library itself
  (timeouts, missing options) is fixed by the model in `exnStr`; the
  messages of exceptions raised by the script's own code are the
  source's literal strings.
-/

/-- Selector kind: Selenium's `By.CSS_SELECTOR` vs `By.XPATH`. -/
inductive LocKind where
  | css
  | xpath
deriving DecidableEq, Repr

/-- Selectors for Scenario 1 (Modal), verbatim from the source. -/
def XPATH_CONTINUE_WITH_EMAIL_BTN : String := "//button[contains(text(), 'Continue with email')]"

def XPATH_FIRST_NAME_MODAL : String := "//form//input[@type='text' and @placeholder='First Name']"

def XPATH_LAST_NAME_MODAL : String := "//form//input[@type='text' and @placeholder='Last Name']"

def XPATH_CONTINUE_BTN_STEP1 : String := "//form//button[.//span[normalize-space()='Continue'] or normalize-space()='Continue']"

def XPATH_EMAIL_MODAL : String := "//form//input[@type='email' and @placeholder='Email']"

def XPATH_PASSWORD_MODAL : String := "//form//input[@type='password' and @placeholder='Password']"

def XPATH_CONTINUE_BTN_STEP2 : String := "(//form//button[.//span[normalize-space()='Continue'] or normalize-space()='Continue'])[last()]"

def XPATH_ZIP_MODAL : String := "//form//input[@name='zip' and @placeholder='ZIP Code']"

def XPATH_SIGNUP_BTN_MODAL : String := "//form//button[.//span[normalize-space()='Sign up'] or normalize-space()='Sign up']"

/-- Selectors for Scenario 2 (Direct Form), verbatim from the source. -/
def CSS_FIRST_NAME_DIRECT : String := "#first_name"

def CSS_LAST_NAME_DIRECT : String := "#last_name"

def CSS_EMAIL_DIRECT : String := "#email"

def CSS_PASSWORD_DIRECT : String := "#password"

def CSS_ZIP_DIRECT : String := "#zip"

def CSS_SIGNUP_DIRECT : String := "#signup-button"

/-- Birthday selectors, verbatim from the source. -/
def CSS_MONTH_SELECT : String := "select[name='birthday_month']"

def CSS_DAY_SELECT : String := "select[name='birthday_day']"

def CSS_YEAR_SELECT : String := "select[name='birthday_year']"

/-- The state of the loaded page, as far as the bot can observe it:
which selectors resolve to an element, which of those elements raise on
interaction (`clear` / `send_keys`), and the option values of the
`<select>` elements (a selector absent from `options` is not a
`<select>` element). -/
structure Page where
  present : List (LocKind × String)
  broken : List (LocKind × String)
  options : List (String × List String)
deriving DecidableEq, Repr

/-- Observable events of a run: browser-automation primitives and
console output.  `Ev.click` is the submit-click primitive the bot never
uses; `Ev.printJson` is `print(json.dumps(...))` in `main`. -/
inductive Ev where
  | createDriver
  | navigate (url : String)
  | sleep
  | findElement (k : LocKind) (loc : String)
  | waitFor (k : LocKind) (loc : String)
  | clear (k : LocKind) (loc : String)
  | sendKeys (k : LocKind) (loc : String) (v : String)
  | getValue (k : LocKind) (loc : String)
  | selectByValue (loc : String) (v : String)
  | click (k : LocKind) (loc : String)
  | waitForInterrupt
  | quitDriver
  | print (s : String)
  | printJson (success : Bool) (error : Option String)
deriving DecidableEq, Repr

/-- Python exceptions the embedded code can raise. -/
inductive Exn where
  | timeoutErr (k : LocKind) (loc : String)
  | noSuchElement (msg : String)
  | unexpectedTag (loc : String)
  | keyErr (k : String)
  | valueErr (msg : String)
  | exc (msg : String)
deriving DecidableEq, Repr

/-- Python's `str(e)`.  For exceptions raised by the Selenium library
the text is fixed by the model; for the script's own `Exception(msg)`
it is the source's literal message. -/
def exnStr : Exn → String
  | Exn.timeoutErr _ _ => "Message: "
  | Exn.noSuchElement m => m
  | Exn.unexpectedTag loc => "Select only works on <select> elements, not on " ++ loc
  | Exn.keyErr k => "'" ++ k ++ "'"
  | Exn.valueErr m => m
  | Exn.exc m => m

/-- A computation of the embedded script: the events it emits and its
outcome (a value, or an uncaught Python exception). -/
def M (α : Type) : Type := List Ev × Except Exn α

/-- Return without events. -/
def mpure {α : Type} (a : α) : M α := ([], Except.ok a)

/-- Sequencing: on an exception the continuation never runs (its
events are not emitted). -/
def mbind {α β : Type} (x : M α) (f : α → M β) : M β :=
  match x with
  | (t, Except.error e) => (t, Except.error e)
  | (t, Except.ok a) =>
    match f a with
    | (t2, r) => (t ++ t2, r)

instance : Monad M where
  pure := mpure
  bind := mbind

/-- `raise e`. -/
def mthrow {α : Type} (e : Exn) : M α := ([], Except.error e)

/-- Python `try: x except Exception as e: h e` — events of the body are
kept, the handler runs only on an exception. -/
def mtry {α : Type} (x : M α) (h : Exn → M α) : M α :=
  match x with
  | (t, Except.ok a) => (t, Except.ok a)
  | (t, Except.error e) =>
    match h e with
    | (t2, r) => (t ++ t2, r)

/-- Python `try: x finally: fin` — `fin` always runs; an exception of
`fin` replaces the body's outcome (our finalizers never raise). -/
def mfinally {α : Type} (x : M α) (fin : M Unit) : M α :=
  match x, fin with
  | (t, r), (t2, r2) =>
    (t ++ t2, match r2 with
              | Except.error e => Except.error e
              | Except.ok _ => r)

/-- Emit one observable event. -/
def emit (e : Ev) : M Unit := ([e], Except.ok ())

/-- `print(s)`. -/
def pyPrint (s : String) : M Unit := emit (Ev.print s)

@[simp] theorem bind_eq_mbind {α β : Type} (x : M α) (f : α → M β) :
    x >>= f = mbind x f := rfl

@[simp] theorem pure_eq_mpure {α : Type} (a : α) :
    (pure a : M α) = ([], Except.ok a) := rfl

/-- A user-data dictionary, as handed to `run_signup` (string keys and
string values; Python dict keys are unique, lookup is `List.lookup`). -/
abbrev Dict := List (String × String)

/-- `user_data[k]`: raises `KeyError(k)` when the key is absent. -/
def getKey (d : Dict) (k : String) : M String :=
  match d.lookup k with
  | some v => mpure v
  | none => mthrow (Exn.keyErr k)

/-- `driver.find_element(k, loc)`: raises `NoSuchElementException`
when the selector resolves to nothing (no waiting). -/
def find_element (page : Page) (k : LocKind) (loc : String) : M Unit := do
  emit (Ev.findElement k loc)
  if (k, loc) ∈ page.present then mpure () else mthrow (Exn.noSuchElement ("Unable to locate element: " ++ loc))

/-- `wait.until(EC.presence_of_element_located((k, loc)))`: raises
`TimeoutException` when the element never appears. -/
def wait_presence (page : Page) (k : LocKind) (loc : String) : M Unit := do
  emit (Ev.waitFor k loc)
  if (k, loc) ∈ page.present then mpure () else mthrow (Exn.timeoutErr k loc)

/-- `element.clear()`: raises when the element is not interactable. -/
def elem_clear (page : Page) (k : LocKind) (loc : String) : M Unit := do
  emit (Ev.clear k loc)
  if (k, loc) ∈ page.broken then mthrow (Exn.exc "element not interactable") else mpure ()

/-- `element.send_keys(v)`: raises when the element is not interactable. -/
def elem_send_keys (page : Page) (k : LocKind) (loc : String) (v : String) : M Unit := do
  emit (Ev.sendKeys k loc v)
  if (k, loc) ∈ page.broken then mthrow (Exn.exc "element not interactable") else mpure ()

/-- `element.get_attribute('value')`: reads back the value just typed
(the model idealises the read-back; its text decides no claim). -/
def elem_get_value (page : Page) (k : LocKind) (loc : String) (typed : String) : M String := do
  emit (Ev.getValue k loc)
  mpure typed

/-- `Select(wait.until(...)).select_by_value(v)` for one birthday
dropdown: waits for the element, requires it to be a `<select>`, and
raises `NoSuchElementException` when no option carries value `v`. -/
def select_dropdown (page : Page) (sel : String) (v : String) : M Unit := do
  wait_presence page LocKind.css sel
  match page.options.lookup sel with
  | none => mthrow (Exn.unexpectedTag sel)
  | some opts => do
    emit (Ev.selectByValue sel v)
    if v ∈ opts then mpure () else mthrow (Exn.noSuchElement ("Could not locate element with value: " ++ v))

/-- Python `s.split('/')` on the character list, accumulator form:
`(current piece, later pieces)`. -/
def splitSlashAux : List Char → List Char × List (List Char)
  | [] => ([], [])
  | c :: rest =>
    match splitSlashAux rest with
    | (cur, parts) => if c = '/' then ([], cur :: parts) else (c :: cur, parts)

/-- Python `s.split('/')`: always at least one piece, empty pieces kept. -/
def pySplit (s : String) : List String :=
  match splitSlashAux s.data with
  | (cur, parts) => (cur :: parts).map (fun l => String.mk l)

/-- The `By` kind `fill_field` derives from its `locator_type` string:
`'css'` selects `By.CSS_SELECTOR`, anything else falls to the else
branch, `By.XPATH`. -/
def locKindOf (lt : String) : LocKind := if lt = "css" then LocKind.css else LocKind.xpath

/-- `YelpSignupBot.fill_field`: best-effort fill of one field.  The
leading progress print stands outside the `try`; every failure inside
it (timeout, not interactable, anything else) is caught, reported with
the field name, and turned into `False`. -/
def fill_field (page : Page) (locator_type : String) (locator : String) (value : String) (field_name : String) : M Bool := do
  let k := locKindOf locator_type
  pyPrint ("Filling " ++ field_name ++ " with: " ++ value)
  mtry
    (do
      wait_presence page k locator
      elem_clear page k locator
      emit Ev.sleep
      elem_send_keys page k locator value
      let actual ← elem_get_value page k locator value
      pyPrint ("✓ " ++ field_name ++ ": " ++ actual)
      mpure true)
    (fun e => do
      pyPrint ("✗ Failed to fill " ++ field_name ++ ": " ++ exnStr e)
      mpure false)

/-- `YelpSignupBot.fill_birthday`: unpacks `birthday.split('/')` into
month, day, year (a `ValueError` when the split has any other arity),
selects each dropdown by value, and catches every failure as a
non-fatal warning returning `False`. -/
def fill_birthday (page : Page) (birthday : String) : M Bool :=
  mtry
    (match pySplit birthday with
     | [month, day, year] => do
       select_dropdown page CSS_MONTH_SELECT month
       pyPrint ("✓ Selected month: " ++ month)
       select_dropdown page CSS_DAY_SELECT day
       pyPrint ("✓ Selected day: " ++ day)
       select_dropdown page CSS_YEAR_SELECT year
       pyPrint ("✓ Selected year: " ++ year)
       mpure true
     | _ => mthrow (Exn.valueErr "values to unpack do not match (expected 3)"))
    (fun e => do
      pyPrint ("⚠ Birthday fields not found or not required: " ++ exnStr e)
      mpure false)

/-- `YelpSignupBot.detect_form_type`: ordered first-match dispatch —
the Direct marker is probed first, then the Modal marker, else
`'UNKNOWN'`; each probe's `NoSuchElementException` is caught. -/
def detect_form_type (page : Page) : M String :=
  mtry
    (do
      find_element page LocKind.css CSS_FIRST_NAME_DIRECT
      mpure "DIRECT")
    (fun e =>
      match e with
      | Exn.noSuchElement _ =>
        mtry
          (do
            find_element page LocKind.xpath XPATH_FIRST_NAME_MODAL
            mpure "MODAL")
          (fun e2 =>
            match e2 with
            | Exn.noSuchElement _ => mpure "UNKNOWN"
            | _ => mthrow e2)
      | _ => mthrow e)

/-- Contents of the four word-list files read by `load_data_file`
(`names.txt`, `lastname.txt`, `mailproviders.txt`, `uszip.txt`). -/
structure Files where
  names : List String
  lastnames : List String
  mailproviders : List String
  uszips : List String
deriving DecidableEq, Repr

/-- One run's random draws: an index draw for each `random.choice` and
a draw for each `random.randint`. -/
structure Rng where
  iFirst : Nat
  iLast : Nat
  iProv : Nat
  iZip : Nat
  nEmail : Nat
  nPass : Nat
  nAge : Nat
  nMonth : Nat
  nDay : Nat
deriving DecidableEq, Repr

/-- `random.choice(l)` driven by the draw `i`: a uniform index into
`l`; raises `IndexError` on an empty sequence. -/
def py_choice (l : List String) (i : Nat) : M String :=
  if h : l.length = 0 then
    mthrow (Exn.exc "Cannot choose from an empty sequence")
  else
    mpure (l.get ⟨i % l.length, Nat.mod_lt i (Nat.pos_of_ne_zero h)⟩)

/-- `random.randint(a, b)` driven by the draw `n`: some integer in
`[a, b]`, both ends included. -/
def py_randint (a b : Nat) (n : Nat) : Nat := a + n % (b + 1 - a)

/-- Python `str(n).zfill(2)` for the numbers produced here. -/
def zfill2 (s : String) : String :=
  if 2 ≤ s.length then s else if s.length = 1 then "0" ++ s else "00"

/-- `YelpSignupBot.generate_random_user_data`: random names, an email
built from the lowercased names, a 3-digit number and a provider, a
`Pass<4-digit>!` password, and a birthday 18–65 years back with the
day capped at 28.  `current_year` is `datetime.now().year`. -/
def generate_random_user_data (files : Files) (rng : Rng) (current_year : Int) : M Dict := do
  let first_name ← py_choice files.names rng.iFirst
  let last_name ← py_choice files.lastnames rng.iLast
  let mail_provider ← py_choice files.mailproviders rng.iProv
  let zip_code ← py_choice files.uszips rng.iZip
  let email := first_name.toLower ++ "." ++ last_name.toLower ++ toString (py_randint 100 999 rng.nEmail) ++ "@" ++ mail_provider
  let password := "Pass" ++ toString (py_randint 1000 9999 rng.nPass) ++ "!"
  let birth_year : Int := current_year - Int.ofNat (py_randint 18 65 rng.nAge)
  let birth_month := zfill2 (toString (py_randint 1 12 rng.nMonth))
  let birth_day := zfill2 (toString (py_randint 1 28 rng.nDay))
  let birthday := birth_month ++ "/" ++ birth_day ++ "/" ++ toString birth_year
  mpure [("firstName", first_name), ("lastName", last_name), ("email", email),
         ("password", password), ("zipCode", zip_code), ("birthday", birthday)]

/-- The result dictionary of `run_signup`: `success`, the optional
`error` text, and `data` echoing the input plus the two timestamps
(`init_time` and `last_time`, in milliseconds). -/
structure RunResult where
  success : Bool
  error : Option String
  data : Dict
  init_time : Nat
  last_time : Nat
deriving DecidableEq, Repr

/-- `YelpSignupBot.run_signup`: create the driver, print the data
(each access may raise `KeyError`), navigate, settle, detect the form
layout, fill the layout's fields best-effort, fill the birthday, and —
without ever touching a submit control — return the result record; any
exception is caught into a failure record; `finally` quits the driver
in headless mode only.  `t0` is `time.time()` at entry and `dt ≥ 0`
the elapsed time when `last_time` is taken. -/
def run_signup (page : Page) (user_data : Dict) (headless : Bool) (t0 dt : Nat) : M RunResult :=
  mfinally
    (mtry
      (do
        emit Ev.createDriver
        pyPrint "=== Starting Yelp Signup ==="
        let fn ← getKey user_data "firstName"
        pyPrint ("First Name: " ++ fn)
        let ln ← getKey user_data "lastName"
        pyPrint ("Last Name: " ++ ln)
        let em ← getKey user_data "email"
        pyPrint ("Email: " ++ em)
        let pw ← getKey user_data "password"
        pyPrint ("Password: " ++ pw)
        let zp ← getKey user_data "zipCode"
        pyPrint ("ZIP Code: " ++ zp)
        let bd ← getKey user_data "birthday"
        pyPrint ("Birthday: " ++ bd)
        emit (Ev.navigate "https://www.yelp.com/signup")
        emit Ev.sleep
        let form_type ← detect_form_type page
        pyPrint ("Form type detected: " ++ form_type)
        if form_type = "DIRECT" then do
          let _ ← fill_field page "css" CSS_FIRST_NAME_DIRECT fn "First Name"
          let _ ← fill_field page "css" CSS_LAST_NAME_DIRECT ln "Last Name"
          let _ ← fill_field page "css" CSS_EMAIL_DIRECT em "Email"
          let _ ← fill_field page "css" CSS_PASSWORD_DIRECT pw "Password"
          let _ ← fill_field page "css" CSS_ZIP_DIRECT zp "ZIP Code"
          let _ ← fill_birthday page bd
          mpure ()
        else if form_type = "MODAL" then do
          let _ ← fill_field page "xpath" XPATH_FIRST_NAME_MODAL fn "First Name"
          let _ ← fill_field page "xpath" XPATH_LAST_NAME_MODAL ln "Last Name"
          let _ ← fill_field page "xpath" XPATH_EMAIL_MODAL em "Email"
          let _ ← fill_field page "xpath" XPATH_PASSWORD_MODAL pw "Password"
          let _ ← fill_field page "xpath" XPATH_ZIP_MODAL zp "ZIP Code"
          let _ ← fill_birthday page bd
          mpure ()
        else
          mthrow (Exn.exc "Unknown form type - could not detect form fields")
        pyPrint "=== All fields filled successfully! ==="
        pyPrint "Note: Submit button NOT clicked - manual review required"
        if headless then mpure () else do
          pyPrint "\nBrowser will remain open for manual review."
          pyPrint "Press Ctrl+C to close when done."
          emit Ev.waitForInterrupt
          pyPrint "\nClosing browser..."
        mpure { success := true
                error := none
                data := user_data
                init_time := t0 * 1000
                last_time := (t0 + dt) * 1000 })
      (fun e => do
        pyPrint "=== Error during signup ==="
        pyPrint ("Error: " ++ exnStr e)
        mpure { success := false
                error := some (exnStr e)
                data := user_data
                init_time := t0 * 1000
                last_time := (t0 + dt) * 1000 }))
    (if headless then emit Ev.quitDriver else mpure ())

/-- Closed form of `select_dropdown`'s events. -/
def sd_tr (page : Page) (sel v : String) : List Ev :=
  Ev.waitFor LocKind.css sel ::
  (if (LocKind.css, sel) ∈ page.present then
    match page.options.lookup sel with
    | none => []
    | some _ => [Ev.selectByValue sel v]
  else [])

/-- Closed form of `select_dropdown`'s outcome. -/
def sd_res (page : Page) (sel v : String) : Except Exn Unit :=
  if (LocKind.css, sel) ∈ page.present then
    match page.options.lookup sel with
    | none => Except.error (Exn.unexpectedTag sel)
    | some opts =>
      if v ∈ opts then Except.ok ()
      else Except.error (Exn.noSuchElement ("Could not locate element with value: " ++ v))
  else Except.error (Exn.timeoutErr LocKind.css sel)

theorem select_dropdown_eq (page : Page) (sel v : String) :
    select_dropdown page sel v = (sd_tr page sel v, sd_res page sel v) := by
  by_cases hp : (LocKind.css, sel) ∈ page.present
  · cases ho : page.options.lookup sel with
    | none => simp [select_dropdown, sd_tr, sd_res, wait_presence, hp, ho, mbind, emit, mpure, mthrow]
    | some opts =>
      by_cases hv : v ∈ opts
      · simp [select_dropdown, sd_tr, sd_res, wait_presence, hp, ho, hv, mbind, emit, mpure, mthrow]
      · simp [select_dropdown, sd_tr, sd_res, wait_presence, hp, ho, hv, mbind, emit, mpure, mthrow]
  · simp [select_dropdown, sd_tr, sd_res, wait_presence, hp, mbind, emit, mpure, mthrow]

/-- Closed form of `fill_field`'s events. -/
def ff_tr (page : Page) (k : LocKind) (loc v nm : String) : List Ev :=
  Ev.print ("Filling " ++ nm ++ " with: " ++ v) ::
  Ev.waitFor k loc ::
  (if (k, loc) ∈ page.present then
    Ev.clear k loc ::
    (if (k, loc) ∈ page.broken then
      [Ev.print ("✗ Failed to fill " ++ nm ++ ": " ++ exnStr (Exn.exc "element not interactable"))]
    else
      [Ev.sleep, Ev.sendKeys k loc v, Ev.getValue k loc,
       Ev.print ("✓ " ++ nm ++ ": " ++ v)])
  else
    [Ev.print ("✗ Failed to fill " ++ nm ++ ": " ++ exnStr (Exn.timeoutErr k loc))])

/-- Closed form of `fill_field`'s boolean result: the element appeared
and interacting with it did not raise. -/
def ff_ret (page : Page) (k : LocKind) (loc : String) : Bool :=
  decide ((k, loc) ∈ page.present) && !decide ((k, loc) ∈ page.broken)

theorem fill_field_eq (page : Page) (lt loc v nm : String) :
    fill_field page lt loc v nm =
      (ff_tr page (locKindOf lt) loc v nm, Except.ok (ff_ret page (locKindOf lt) loc)) := by
  by_cases hp : (locKindOf lt, loc) ∈ page.present
  · by_cases hb : (locKindOf lt, loc) ∈ page.broken
    · simp [fill_field, ff_tr, ff_ret, wait_presence, elem_clear, elem_send_keys,
        elem_get_value, hp, hb, mbind, mtry, emit, pyPrint, mpure, mthrow]
    · simp [fill_field, ff_tr, ff_ret, wait_presence, elem_clear, elem_send_keys,
        elem_get_value, hp, hb, mbind, mtry, emit, pyPrint, mpure, mthrow]
  · simp [fill_field, ff_tr, ff_ret, wait_presence, elem_clear, elem_send_keys,
      elem_get_value, hp, mbind, mtry, emit, pyPrint, mpure, mthrow]

/-- The non-fatal warning `fill_birthday` prints when anything fails. -/
def fbWarn (e : Exn) : List Ev :=
  [Ev.print ("⚠ Birthday fields not found or not required: " ++ exnStr e)]

/-- Closed form of `fill_birthday`'s events. -/
def fb_tr (page : Page) (b : String) : List Ev :=
  match pySplit b with
  | [m, d, y] =>
    sd_tr page CSS_MONTH_SELECT m ++
    (match sd_res page CSS_MONTH_SELECT m with
     | Except.error e => fbWarn e
     | Except.ok _ =>
       Ev.print ("✓ Selected month: " ++ m) ::
       sd_tr page CSS_DAY_SELECT d ++
       (match sd_res page CSS_DAY_SELECT d with
        | Except.error e => fbWarn e
        | Except.ok _ =>
          Ev.print ("✓ Selected day: " ++ d) ::
          sd_tr page CSS_YEAR_SELECT y ++
          (match sd_res page CSS_YEAR_SELECT y with
           | Except.error e => fbWarn e
           | Except.ok _ => [Ev.print ("✓ Selected year: " ++ y)])))
  | _ => fbWarn (Exn.valueErr "values to unpack do not match (expected 3)")

/-- Closed form of `fill_birthday`'s boolean result. -/
def fb_ret (page : Page) (b : String) : Bool :=
  match pySplit b with
  | [m, d, y] =>
    match sd_res page CSS_MONTH_SELECT m, sd_res page CSS_DAY_SELECT d,
          sd_res page CSS_YEAR_SELECT y with
    | Except.ok _, Except.ok _, Except.ok _ => true
    | _, _, _ => false
  | _ => false

theorem fill_birthday_eq (page : Page) (b : String) :
    fill_birthday page b = (fb_tr page b, Except.ok (fb_ret page b)) := by
  unfold fill_birthday fb_tr fb_ret
  cases hb : pySplit b with
  | nil => simp [mtry, mthrow, pyPrint, emit, mbind, mpure, fbWarn]
  | cons m t1 =>
    cases t1 with
    | nil => simp [mtry, mthrow, pyPrint, emit, mbind, mpure, fbWarn]
    | cons d t2 =>
      cases t2 with
      | nil => simp [mtry, mthrow, pyPrint, emit, mbind, mpure, fbWarn]
      | cons y t3 =>
        cases t3 with
        | cons z t4 => simp [mtry, mthrow, pyPrint, emit, mbind, mpure, fbWarn]
        | nil =>
          simp only [select_dropdown_eq]
          cases h1 : sd_res page CSS_MONTH_SELECT m with
          | error e1 => simp [h1, mtry, mthrow, pyPrint, emit, mbind, mpure, fbWarn]
          | ok u1 =>
            cases h2 : sd_res page CSS_DAY_SELECT d with
            | error e2 => simp [h1, h2, mtry, mthrow, pyPrint, emit, mbind, mpure, fbWarn]
            | ok u2 =>
              cases h3 : sd_res page CSS_YEAR_SELECT y with
              | error e3 => simp [h1, h2, h3, mtry, mthrow, pyPrint, emit, mbind, mpure, fbWarn]
              | ok u3 => simp [h1, h2, h3, mtry, mthrow, pyPrint, emit, mbind, mpure, fbWarn]

/-- Closed form of `detect_form_type`'s events: the Direct probe, and
the Modal probe only when the Direct probe failed. -/
def detect_tr (page : Page) : List Ev :=
  if (LocKind.css, CSS_FIRST_NAME_DIRECT) ∈ page.present then
    [Ev.findElement LocKind.css CSS_FIRST_NAME_DIRECT]
  else
    [Ev.findElement LocKind.css CSS_FIRST_NAME_DIRECT,
     Ev.findElement LocKind.xpath XPATH_FIRST_NAME_MODAL]

/-- Closed form of `detect_form_type`'s result: ordered first-match
dispatch, Direct before Modal. -/
def detect_ret (page : Page) : String :=
  if (LocKind.css, CSS_FIRST_NAME_DIRECT) ∈ page.present then "DIRECT"
  else if (LocKind.xpath, XPATH_FIRST_NAME_MODAL) ∈ page.present then "MODAL"
  else "UNKNOWN"

theorem detect_form_type_eq (page : Page) :
    detect_form_type page = (detect_tr page, Except.ok (detect_ret page)) := by
  by_cases h1 : (LocKind.css, CSS_FIRST_NAME_DIRECT) ∈ page.present
  · simp [detect_form_type, detect_tr, detect_ret, find_element, h1, mtry, mbind, emit, mpure, mthrow]
  · by_cases h2 : (LocKind.xpath, XPATH_FIRST_NAME_MODAL) ∈ page.present
    · simp [detect_form_type, detect_tr, detect_ret, find_element, h1, h2, mtry, mbind, emit, mpure, mthrow]
    · simp [detect_form_type, detect_tr, detect_ret, find_element, h1, h2, mtry, mbind, emit, mpure, mthrow]

/-- Events printed by `run_signup`'s `except` handler for exception `e`. -/
def err_tr (e : Exn) : List Ev :=
  [Ev.print "=== Error during signup ===", Ev.print ("Error: " ++ exnStr e)]

/-- Events of `run_signup`'s `finally` block: quit only in headless mode. -/
def fin_tr (headless : Bool) : List Ev := if headless then [Ev.quitDriver] else []

/-- Events of the Direct-layout fill sequence. -/
def direct_tr (page : Page) (fn ln em pw zp bd : String) : List Ev :=
  ff_tr page LocKind.css CSS_FIRST_NAME_DIRECT fn "First Name" ++
  ff_tr page LocKind.css CSS_LAST_NAME_DIRECT ln "Last Name" ++
  ff_tr page LocKind.css CSS_EMAIL_DIRECT em "Email" ++
  ff_tr page LocKind.css CSS_PASSWORD_DIRECT pw "Password" ++
  ff_tr page LocKind.css CSS_ZIP_DIRECT zp "ZIP Code" ++
  fb_tr page bd

/-- Events of the Modal-layout fill sequence. -/
def modal_tr (page : Page) (fn ln em pw zp bd : String) : List Ev :=
  ff_tr page LocKind.xpath XPATH_FIRST_NAME_MODAL fn "First Name" ++
  ff_tr page LocKind.xpath XPATH_LAST_NAME_MODAL ln "Last Name" ++
  ff_tr page LocKind.xpath XPATH_EMAIL_MODAL em "Email" ++
  ff_tr page LocKind.xpath XPATH_PASSWORD_MODAL pw "Password" ++
  ff_tr page LocKind.xpath XPATH_ZIP_MODAL zp "ZIP Code" ++
  fb_tr page bd

/-- Events after a successful fill: the closing prints and, in
non-headless mode, the indefinite wait for an external interrupt. -/
def success_tail_tr (headless : Bool) : List Ev :=
  Ev.print "=== All fields filled successfully! ===" ::
  Ev.print "Note: Submit button NOT clicked - manual review required" ::
  (if headless then [] else
    [Ev.print "\nBrowser will remain open for manual review.",
     Ev.print "Press Ctrl+C to close when done.",
     Ev.waitForInterrupt,
     Ev.print "\nClosing browser..."])

/-- The first of the six keys `run_signup` reads that is absent from
the user-data dictionary, in access order. -/
def firstMissingKey (d : Dict) : Option String :=
  if d.lookup "firstName" = none then some "firstName"
  else if d.lookup "lastName" = none then some "lastName"
  else if d.lookup "email" = none then some "email"
  else if d.lookup "password" = none then some "password"
  else if d.lookup "zipCode" = none then some "zipCode"
  else if d.lookup "birthday" = none then some "birthday"
  else none

/-- The error text of `run_signup`'s result: a `KeyError` for the
first missing key, the unknown-form message when neither layout marker
is present, and nothing otherwise. -/
def run_error (page : Page) (d : Dict) : Option String :=
  match firstMissingKey d with
  | some k => some (exnStr (Exn.keyErr k))
  | none =>
    if detect_ret page = "UNKNOWN" then
      some "Unknown form type - could not detect form fields"
    else none

/-- Closed form of `run_signup`'s result record. -/
def run_res (page : Page) (d : Dict) (t0 dt : Nat) : RunResult :=
  { success := (run_error page d).isNone
    error := run_error page d
    data := d
    init_time := t0 * 1000
    last_time := (t0 + dt) * 1000 }

/-- Closed form of `run_signup`'s events. -/
def run_tr (page : Page) (d : Dict) (headless : Bool) : List Ev :=
  Ev.createDriver ::
  Ev.print "=== Starting Yelp Signup ===" ::
  ((match d.lookup "firstName" with
   | none => err_tr (Exn.keyErr "firstName")
   | some fn =>
     Ev.print ("First Name: " ++ fn) ::
     match d.lookup "lastName" with
     | none => err_tr (Exn.keyErr "lastName")
     | some ln =>
       Ev.print ("Last Name: " ++ ln) ::
       match d.lookup "email" with
       | none => err_tr (Exn.keyErr "email")
       | some em =>
         Ev.print ("Email: " ++ em) ::
         match d.lookup "password" with
         | none => err_tr (Exn.keyErr "password")
         | some pw =>
           Ev.print ("Password: " ++ pw) ::
           match d.lookup "zipCode" with
           | none => err_tr (Exn.keyErr "zipCode")
           | some zp =>
             Ev.print ("ZIP Code: " ++ zp) ::
             match d.lookup "birthday" with
             | none => err_tr (Exn.keyErr "birthday")
             | some bd =>
               Ev.print ("Birthday: " ++ bd) ::
               Ev.navigate "https://www.yelp.com/signup" ::
               Ev.sleep ::
               detect_tr page ++
               Ev.print ("Form type detected: " ++ detect_ret page) ::
               (if detect_ret page = "DIRECT" then
                  direct_tr page fn ln em pw zp bd ++ success_tail_tr headless
                else if detect_ret page = "MODAL" then
                  modal_tr page fn ln em pw zp bd ++ success_tail_tr headless
                else
                  err_tr (Exn.exc "Unknown form type - could not detect form fields"))) ++
   fin_tr headless)

theorem detect_ret_cases (page : Page) :
    detect_ret page = "DIRECT" ∨ detect_ret page = "MODAL" ∨ detect_ret page = "UNKNOWN" := by
  unfold detect_ret
  split_ifs <;> simp

set_option maxHeartbeats 2000000 in
theorem run_signup_eq (page : Page) (d : Dict) (headless : Bool) (t0 dt : Nat) :
    run_signup page d headless t0 dt = (run_tr page d headless, Except.ok (run_res page d t0 dt)) := by
  unfold run_signup run_tr run_res run_error firstMissingKey
  simp only [detect_form_type_eq, fill_field_eq, fill_birthday_eq, bind_eq_mbind]
  cases hfn : d.lookup "firstName" with
  | none =>
    cases headless <;>
      simp [getKey, hfn, mfinally, mtry, mbind, mthrow, mpure, emit, pyPrint, err_tr, fin_tr, exnStr]
  | some fn =>
  cases hln : d.lookup "lastName" with
  | none =>
    cases headless <;>
      simp [getKey, hfn, hln, mfinally, mtry, mbind, mthrow, mpure, emit, pyPrint, err_tr, fin_tr, exnStr]
  | some ln =>
  cases hem : d.lookup "email" with
  | none =>
    cases headless <;>
      simp [getKey, hfn, hln, hem, mfinally, mtry, mbind, mthrow, mpure, emit, pyPrint, err_tr, fin_tr, exnStr]
  | some em =>
  cases hpw : d.lookup "password" with
  | none =>
    cases headless <;>
      simp [getKey, hfn, hln, hem, hpw, mfinally, mtry, mbind, mthrow, mpure, emit, pyPrint, err_tr, fin_tr, exnStr]
  | some pw =>
  cases hzp : d.lookup "zipCode" with
  | none =>
    cases headless <;>
      simp [getKey, hfn, hln, hem, hpw, hzp, mfinally, mtry, mbind, mthrow, mpure, emit, pyPrint, err_tr, fin_tr, exnStr]
  | some zp =>
  cases hbd : d.lookup "birthday" with
  | none =>
    cases headless <;>
      simp [getKey, hfn, hln, hem, hpw, hzp, hbd, mfinally, mtry, mbind, mthrow, mpure, emit, pyPrint, err_tr, fin_tr, exnStr]
  | some bd =>
  by_cases hd : detect_ret page = "DIRECT"
  · cases headless <;>
      simp [getKey, hfn, hln, hem, hpw, hzp, hbd, hd, locKindOf, direct_tr, success_tail_tr, fin_tr,
        mfinally, mtry, mbind, mthrow, mpure, emit, pyPrint, exnStr]
  · by_cases hm : detect_ret page = "MODAL"
    · cases headless <;>
        simp [getKey, hfn, hln, hem, hpw, hzp, hbd, hd, hm, locKindOf, modal_tr, success_tail_tr, fin_tr,
          mfinally, mtry, mbind, mthrow, mpure, emit, pyPrint, exnStr]
    · have hu : detect_ret page = "UNKNOWN" := by
        rcases detect_ret_cases page with h | h | h
        · exact absurd h hd
        · exact absurd h hm
        · exact h
      cases headless <;>
        simp [getKey, hfn, hln, hem, hpw, hzp, hbd, hd, hm, hu, err_tr, fin_tr,
          mfinally, mtry, mbind, mthrow, mpure, emit, pyPrint, exnStr]

/-- The selectors `run_signup` ever fills or probes as form fields. -/
def fieldSelectors : List String :=
  [CSS_FIRST_NAME_DIRECT, CSS_LAST_NAME_DIRECT, CSS_EMAIL_DIRECT, CSS_PASSWORD_DIRECT,
   CSS_ZIP_DIRECT, XPATH_FIRST_NAME_MODAL, XPATH_LAST_NAME_MODAL, XPATH_EMAIL_MODAL,
   XPATH_PASSWORD_MODAL, XPATH_ZIP_MODAL, CSS_MONTH_SELECT, CSS_DAY_SELECT, CSS_YEAR_SELECT]

/-- Shape of every event a `run_signup` trace can contain: no JSON
output, no click, and every element interaction addressed to a known
form-field or birthday selector (in particular never to a submit
control). -/
def runEvOk : Ev → Prop
  | Ev.printJson _ _ => False
  | Ev.click _ _ => False
  | Ev.waitFor _ loc => loc ∈ fieldSelectors
  | Ev.clear _ loc => loc ∈ fieldSelectors
  | Ev.sendKeys _ loc _ => loc ∈ fieldSelectors
  | Ev.getValue _ loc => loc ∈ fieldSelectors
  | Ev.selectByValue loc _ => loc ∈ [CSS_MONTH_SELECT, CSS_DAY_SELECT, CSS_YEAR_SELECT]
  | Ev.findElement _ loc => loc ∈ [CSS_FIRST_NAME_DIRECT, XPATH_FIRST_NAME_MODAL]
  | _ => True

theorem err_tr_ok (e2 : Exn) : ∀ e ∈ err_tr e2, runEvOk e := by
  intro e he
  rcases List.mem_cons.mp he with rfl | he
  · trivial
  rcases List.mem_cons.mp he with rfl | he
  · trivial
  cases he

theorem fin_tr_ok (headless : Bool) : ∀ e ∈ fin_tr headless, runEvOk e := by
  intro e he
  cases headless with
  | true =>
    rcases List.mem_cons.mp he with rfl | he
    · trivial
    · cases he
  | false => cases he

theorem success_tail_tr_ok (headless : Bool) : ∀ e ∈ success_tail_tr headless, runEvOk e := by
  intro e he
  unfold success_tail_tr at he
  rcases List.mem_cons.mp he with rfl | he
  · trivial
  rcases List.mem_cons.mp he with rfl | he
  · trivial
  cases headless with
  | true => cases he
  | false =>
    rcases List.mem_cons.mp he with rfl | he
    · trivial
    rcases List.mem_cons.mp he with rfl | he
    · trivial
    rcases List.mem_cons.mp he with rfl | he
    · trivial
    rcases List.mem_cons.mp he with rfl | he
    · trivial
    cases he

theorem detect_tr_ok (page : Page) : ∀ e ∈ detect_tr page, runEvOk e := by
  intro e he
  unfold detect_tr at he
  by_cases hp : (LocKind.css, CSS_FIRST_NAME_DIRECT) ∈ page.present
  · rw [if_pos hp] at he
    rcases List.mem_cons.mp he with rfl | he
    · simp [runEvOk]
    · cases he
  · rw [if_neg hp] at he
    rcases List.mem_cons.mp he with rfl | he
    · simp [runEvOk]
    rcases List.mem_cons.mp he with rfl | he
    · simp [runEvOk]
    · cases he

theorem sd_tr_ok (page : Page) (sel v : String)
    (hs : sel ∈ fieldSelectors)
    (hsv : sel ∈ [CSS_MONTH_SELECT, CSS_DAY_SELECT, CSS_YEAR_SELECT]) :
    ∀ e ∈ sd_tr page sel v, runEvOk e := by
  intro e he
  unfold sd_tr at he
  rcases List.mem_cons.mp he with rfl | he2
  · exact hs
  by_cases hp : (LocKind.css, sel) ∈ page.present
  · rw [if_pos hp] at he2
    cases ho : page.options.lookup sel with
    | none => rw [ho] at he2; cases he2
    | some opts =>
      rw [ho] at he2
      rcases List.mem_cons.mp he2 with rfl | he3
      · exact hsv
      · cases he3
  · rw [if_neg hp] at he2
    cases he2

theorem ff_tr_ok (page : Page) (k : LocKind) (loc v nm : String)
    (hs : loc ∈ fieldSelectors) :
    ∀ e ∈ ff_tr page k loc v nm, runEvOk e := by
  intro e he
  unfold ff_tr at he
  rcases List.mem_cons.mp he with rfl | he
  · trivial
  rcases List.mem_cons.mp he with rfl | he
  · exact hs
  by_cases hp : (k, loc) ∈ page.present
  · rw [if_pos hp] at he
    rcases List.mem_cons.mp he with rfl | he
    · exact hs
    by_cases hb : (k, loc) ∈ page.broken
    · rw [if_pos hb] at he
      rcases List.mem_cons.mp he with rfl | he
      · trivial
      · cases he
    · rw [if_neg hb] at he
      rcases List.mem_cons.mp he with rfl | he
      · trivial
      rcases List.mem_cons.mp he with rfl | he
      · exact hs
      rcases List.mem_cons.mp he with rfl | he
      · exact hs
      rcases List.mem_cons.mp he with rfl | he
      · trivial
      · cases he
  · rw [if_neg hp] at he
    rcases List.mem_cons.mp he with rfl | he
    · trivial
    · cases he

theorem fbWarn_ok (e2 : Exn) : ∀ e ∈ fbWarn e2, runEvOk e := by
  intro e he
  rcases List.mem_cons.mp he with rfl | he
  · trivial
  · cases he

theorem fb_tr_ok (page : Page) (b : String) : ∀ e ∈ fb_tr page b, runEvOk e := by
  intro e he
  unfold fb_tr at he
  cases hsp : pySplit b with
  | nil => rw [hsp] at he; exact fbWarn_ok _ e he
  | cons m t1 =>
  cases t1 with
  | nil => rw [hsp] at he; exact fbWarn_ok _ e he
  | cons dd t2 =>
  cases t2 with
  | nil => rw [hsp] at he; exact fbWarn_ok _ e he
  | cons y t3 =>
  cases t3 with
  | cons z t4 => rw [hsp] at he; exact fbWarn_ok _ e he
  | nil =>
  rw [hsp] at he
  rcases List.mem_append.mp he with he | he
  · exact sd_tr_ok page CSS_MONTH_SELECT m (by simp [fieldSelectors]) (by simp) e he
  cases h1 : sd_res page CSS_MONTH_SELECT m with
  | error e1 => rw [h1] at he; exact fbWarn_ok _ e he
  | ok u1 =>
  rw [h1] at he
  rcases List.mem_cons.mp he with rfl | he
  · trivial
  rcases List.mem_append.mp he with he | he
  · exact sd_tr_ok page CSS_DAY_SELECT dd (by simp [fieldSelectors]) (by simp) e he
  cases h2 : sd_res page CSS_DAY_SELECT dd with
  | error e2 => rw [h2] at he; exact fbWarn_ok _ e he
  | ok u2 =>
  rw [h2] at he
  rcases List.mem_cons.mp he with rfl | he
  · trivial
  rcases List.mem_append.mp he with he | he
  · exact sd_tr_ok page CSS_YEAR_SELECT y (by simp [fieldSelectors]) (by simp) e he
  cases h3 : sd_res page CSS_YEAR_SELECT y with
  | error e3 => rw [h3] at he; exact fbWarn_ok _ e he
  | ok u3 =>
  rw [h3] at he
  rcases List.mem_cons.mp he with rfl | he
  · trivial
  · cases he

theorem direct_tr_ok (page : Page) (fn ln em pw zp bd : String) :
    ∀ e ∈ direct_tr page fn ln em pw zp bd, runEvOk e := by
  intro e he
  unfold direct_tr at he
  rcases List.mem_append.mp he with he | he
  rcases List.mem_append.mp he with he | he
  rcases List.mem_append.mp he with he | he
  rcases List.mem_append.mp he with he | he
  rcases List.mem_append.mp he with he | he
  · exact ff_tr_ok page _ _ _ _ (by simp [fieldSelectors]) e he
  · exact ff_tr_ok page _ _ _ _ (by simp [fieldSelectors]) e he
  · exact ff_tr_ok page _ _ _ _ (by simp [fieldSelectors]) e he
  · exact ff_tr_ok page _ _ _ _ (by simp [fieldSelectors]) e he
  · exact ff_tr_ok page _ _ _ _ (by simp [fieldSelectors]) e he
  · exact fb_tr_ok page _ e he

theorem modal_tr_ok (page : Page) (fn ln em pw zp bd : String) :
    ∀ e ∈ modal_tr page fn ln em pw zp bd, runEvOk e := by
  intro e he
  unfold modal_tr at he
  rcases List.mem_append.mp he with he | he
  rcases List.mem_append.mp he with he | he
  rcases List.mem_append.mp he with he | he
  rcases List.mem_append.mp he with he | he
  rcases List.mem_append.mp he with he | he
  · exact ff_tr_ok page _ _ _ _ (by simp [fieldSelectors]) e he
  · exact ff_tr_ok page _ _ _ _ (by simp [fieldSelectors]) e he
  · exact ff_tr_ok page _ _ _ _ (by simp [fieldSelectors]) e he
  · exact ff_tr_ok page _ _ _ _ (by simp [fieldSelectors]) e he
  · exact ff_tr_ok page _ _ _ _ (by simp [fieldSelectors]) e he
  · exact fb_tr_ok page _ e he

theorem run_tr_ok (page : Page) (d : Dict) (headless : Bool) :
    ∀ e ∈ run_tr page d headless, runEvOk e := by
  intro e he
  unfold run_tr at he
  rcases List.mem_cons.mp he with rfl | he
  · trivial
  rcases List.mem_cons.mp he with rfl | he
  · trivial
  rcases List.mem_append.mp he with he | he
  swap
  · exact fin_tr_ok headless e he
  cases hfn : d.lookup "firstName" <;> simp only [hfn] at he
  case none => exact err_tr_ok _ e he
  case some fn =>
  rcases List.mem_cons.mp he with rfl | he
  · trivial
  cases hln : d.lookup "lastName" <;> simp only [hln] at he
  case none => exact err_tr_ok _ e he
  case some ln =>
  rcases List.mem_cons.mp he with rfl | he
  · trivial
  cases hem : d.lookup "email" <;> simp only [hem] at he
  case none => exact err_tr_ok _ e he
  case some em =>
  rcases List.mem_cons.mp he with rfl | he
  · trivial
  cases hpw : d.lookup "password" <;> simp only [hpw] at he
  case none => exact err_tr_ok _ e he
  case some pw =>
  rcases List.mem_cons.mp he with rfl | he
  · trivial
  cases hzp : d.lookup "zipCode" <;> simp only [hzp] at he
  case none => exact err_tr_ok _ e he
  case some zp =>
  rcases List.mem_cons.mp he with rfl | he
  · trivial
  cases hbd : d.lookup "birthday" <;> simp only [hbd] at he
  case none => exact err_tr_ok _ e he
  case some bd =>
  rcases List.mem_cons.mp he with rfl | he
  · trivial
  rcases List.mem_cons.mp he with rfl | he
  · trivial
  rcases List.mem_cons.mp he with rfl | he
  · trivial
  rcases List.mem_append.mp he with he | he
  · exact detect_tr_ok page e he
  rcases List.mem_cons.mp he with rfl | he
  · trivial
  split at he
  · rcases List.mem_append.mp he with he | he
    · exact direct_tr_ok page _ _ _ _ _ _ e he
    · exact success_tail_tr_ok headless e he
  · split at he
    · rcases List.mem_append.mp he with he | he
      · exact modal_tr_ok page _ _ _ _ _ _ e he
      · exact success_tail_tr_ok headless e he
    · exact err_tr_ok _ e he

/-- The `--mode` argument: argparse admits exactly these two choices. -/
inductive Mode where
  | automatic
  | manual
deriving DecidableEq, Repr

/-- The parsed command line of `main` (`--timeout` only feeds the
element wait and plays no further role in the model). -/
structure Args where
  mode : Mode
  data : Option String
  headless : Bool

/-- The environment `main` runs against: the loaded page, the word-list
files, the random draws, the calendar year, and `json.loads` on the
`--data` payload (an external library call, abstracted as a parser that
either yields a dictionary or fails with a message). -/
structure Env where
  page : Page
  files : Files
  rng : Rng
  current_year : Int
  jsonParse : String → Except String Dict

/-- `json.loads(s)`: a `ValueError` (`json.JSONDecodeError`) on a
malformed payload. -/
def pyJsonLoads (env : Env) (s : String) : M Dict :=
  match env.jsonParse s with
  | Except.ok d => mpure d
  | Except.error msg => mthrow (Exn.valueErr msg)

/-- The shared tail of `main`'s try block: run the signup, print the
result banner and the JSON result object, and exit `0` on success else
`1`.  The boolean records that the driver was created (for `finally`'s
`bot.close()`). -/
def run_and_report (env : Env) (d : Dict) (headless : Bool) (t0 dt : Nat) : M (Nat × Bool) := do
  let result ← run_signup env.page d headless t0 dt
  pyPrint "\n=== RESULT ==="
  emit (Ev.printJson result.success result.error)
  mpure (if result.success then 0 else 1, true)

/-- The try/except of `main`: mode dispatch, data acquisition, the run,
and the catch-all that prints an error JSON and exits `1`.  `sys.exit`
is modelled as returning the exit code (a `SystemExit` passes the
`except Exception` handler untouched). -/
def main_body (env : Env) (args : Args) (t0 dt : Nat) : M (Nat × Bool) :=
  mtry
    (match args.mode, args.data with
     | Mode.manual, none => do
       emit (Ev.printJson false (some "Manual mode requires --data argument with user data"))
       mpure (1, false)
     | Mode.manual, some s => do
       let d ← pyJsonLoads env s
       run_and_report env d args.headless t0 dt
     | Mode.automatic, _ => do
       let d ← generate_random_user_data env.files env.rng env.current_year
       run_and_report env d args.headless t0 dt)
    (fun e => do
      emit (Ev.printJson false (some (exnStr e)))
      mpure (1, false))

/-- `main`: the try/except body followed by its `finally` (`bot.close()`
in headless mode, a no-op while no driver exists).  Yields the events
and the process exit code. -/
def main_run (env : Env) (args : Args) (t0 dt : Nat) : List Ev × Nat :=
  match main_body env args t0 dt with
  | (t, Except.ok (code, drv)) =>
    (t ++ (if args.headless && drv then [Ev.quitDriver] else []), code)
  | (t, Except.error _) => (t, 1)

/-- What a trace writes to standard output: plain lines and JSON
result objects, in order. -/
inductive StdoutItem where
  | line (s : String)
  | json (success : Bool) (error : Option String)
deriving DecidableEq, Repr

/-- The standard-output items of a trace. -/
def stdoutOf (tr : List Ev) : List StdoutItem :=
  tr.filterMap fun e =>
    match e with
    | Ev.print s => some (StdoutItem.line s)
    | Ev.printJson b err => some (StdoutItem.json b err)
    | _ => none

/-- The JSON result objects a trace writes to standard output. -/
def jsonOuts (tr : List Ev) : List (Bool × Option String) :=
  tr.filterMap fun e =>
    match e with
    | Ev.printJson b err => some (b, err)
    | _ => none

/-- Does `pat` occur as a contiguous run inside `l`? -/
def containsSub (pat : List Char) : List Char → Bool
  | [] => pat.isEmpty
  | c :: rest => pat.isPrefixOf (c :: rest) || containsSub pat rest

/-- Substring test: `pat` occurs in `s`. -/
def strContains (s pat : String) : Bool := containsSub pat.data s.data

theorem generate_tr_nil (files : Files) (rng : Rng) (year : Int) :
    (generate_random_user_data files rng year).1 = [] := by
  unfold generate_random_user_data py_choice
  split_ifs <;> rfl

theorem jsonOuts_run_tr (page : Page) (d : Dict) (headless : Bool) :
    jsonOuts (run_tr page d headless) = [] := by
  unfold jsonOuts
  rw [List.filterMap_eq_nil]
  intro e he
  have h := run_tr_ok page d headless e he
  cases e <;> first | rfl | exact absurd h (by simp [runEvOk])

theorem stdout_lines_run_tr (page : Page) (d : Dict) (headless : Bool) :
    ∀ x ∈ stdoutOf (run_tr page d headless), ∃ s, x = StdoutItem.line s := by
  intro x hx
  unfold stdoutOf at hx
  rcases List.mem_filterMap.mp hx with ⟨e, he, hfe⟩
  have h := run_tr_ok page d headless e he
  cases e with
  | print s => exact ⟨s, by cases hfe; rfl⟩
  | printJson b err => exact absurd h (by simp [runEvOk])
  | _ => cases hfe

/-- Is the event a click on some element? -/
def isClick : Ev → Bool
  | Ev.click _ _ => true
  | _ => false

/-- The selector an event addresses, when it addresses one. -/
def evLoc : Ev → Option String
  | Ev.findElement _ loc => some loc
  | Ev.waitFor _ loc => some loc
  | Ev.clear _ loc => some loc
  | Ev.sendKeys _ loc _ => some loc
  | Ev.getValue _ loc => some loc
  | Ev.selectByValue loc _ => some loc
  | Ev.click _ loc => some loc
  | _ => none

/-- Is the event an element interaction of a field fill (the wait,
clear, type, read-back and dropdown-select primitives that only
`fill_field` and `fill_birthday` perform)? -/
def isFieldFillEv : Ev → Bool
  | Ev.waitFor _ _ => true
  | Ev.clear _ _ => true
  | Ev.sendKeys _ _ _ => true
  | Ev.getValue _ _ => true
  | Ev.selectByValue _ _ => true
  | _ => false

/-- The dropdown selections of a trace: (selector, selected value). -/
def selections (tr : List Ev) : List (String × String) :=
  tr.filterMap fun e =>
    match e with
    | Ev.selectByValue loc v => some (loc, v)
    | _ => none

/-- Does the printed line report a failed field fill? -/
def isFailPrint (s : String) : Bool := List.isPrefixOf "✗ Failed to fill ".data s.data

/-- The per-field failure reports of a trace. -/
def failPrints (tr : List Ev) : List String :=
  tr.filterMap fun e =>
    match e with
    | Ev.print s => if isFailPrint s then some s else none
    | _ => none

/-- The user data of the specification's worked example. -/
def anaData : Dict :=
  [("firstName", "Ana"), ("lastName", "Ruiz"), ("email", "ana@x.com"),
   ("password", "Pw12!"), ("zipCode", "10001"), ("birthday", "05/10/1990")]

theorem fieldSelectors_not_submit :
    ∀ loc ∈ fieldSelectors, loc ≠ CSS_SIGNUP_DIRECT ∧ loc ≠ XPATH_SIGNUP_BTN_MODAL := by
  decide

theorem run_direct_success (page : Page) (d : Dict) (headless : Bool) (t0 dt : Nat)
    (hk : firstMissingKey d = none)
    (hm : (LocKind.css, CSS_FIRST_NAME_DIRECT) ∈ page.present) :
    (run_signup page d headless t0 dt).2 = Except.ok (run_res page d t0 dt) ∧
      (run_res page d t0 dt).success = true := by
  have hd : detect_ret page = "DIRECT" := by unfold detect_ret; rw [if_pos hm]
  constructor
  · rw [run_signup_eq]
  · simp [run_res, run_error, hk, hd]

/-- C3: the layout detector is an ordered first-match dispatch: when
the Direct marker is present it returns `DIRECT` (whatever else the
page holds, in particular when Modal markers are also present);
otherwise when the Modal first-name element is present it returns
`MODAL`; otherwise `UNKNOWN`. -/
theorem detect_form_type_first_match (page : Page) :
    ((LocKind.css, CSS_FIRST_NAME_DIRECT) ∈ page.present →
      (detect_form_type page).2 = Except.ok "DIRECT") ∧
    ((LocKind.css, CSS_FIRST_NAME_DIRECT) ∉ page.present →
      (LocKind.xpath, XPATH_FIRST_NAME_MODAL) ∈ page.present →
      (detect_form_type page).2 = Except.ok "MODAL") ∧
    ((LocKind.css, CSS_FIRST_NAME_DIRECT) ∉ page.present →
      (LocKind.xpath, XPATH_FIRST_NAME_MODAL) ∉ page.present →
      (detect_form_type page).2 = Except.ok "UNKNOWN") := by
  rw [detect_form_type_eq]
  refine ⟨fun h1 => ?_, fun h1 h2 => ?_, fun h1 h2 => ?_⟩ <;>
    simp [detect_ret, *]

/-- Page for the first-match witness: both the Direct marker and the
Modal first-name element are present; Direct wins. -/
def bothMarkersPage : Page :=
  { present := [(LocKind.css, CSS_FIRST_NAME_DIRECT), (LocKind.xpath, XPATH_FIRST_NAME_MODAL)]
    broken := []
    options := [] }

theorem detect_form_type_first_match_witness :
    (LocKind.xpath, XPATH_FIRST_NAME_MODAL) ∈ bothMarkersPage.present ∧
      (detect_form_type bothMarkersPage).2 = Except.ok "DIRECT" :=
  ⟨by decide, (detect_form_type_first_match bothMarkersPage).1 (by decide)⟩

/-- C7: whatever the input and outcome, `run_signup` hands its caller
a well-formed result record — never an uncaught exception — whose
`data` echoes the input, whose two timestamps are always present with
`last_time ≥ init_time`, and which carries an error message whenever
`success` is false. -/
theorem run_signup_wellformed_result (page : Page) (d : Dict) (headless : Bool) (t0 dt : Nat) :
    (run_signup page d headless t0 dt).2 = Except.ok (run_res page d t0 dt) ∧
    (run_res page d t0 dt).data = d ∧
    (run_res page d t0 dt).init_time = t0 * 1000 ∧
    (run_res page d t0 dt).last_time = (t0 + dt) * 1000 ∧
    (run_res page d t0 dt).init_time ≤ (run_res page d t0 dt).last_time ∧
    ((run_res page d t0 dt).success = false → (run_res page d t0 dt).error.isSome) := by
  refine ⟨by rw [run_signup_eq], rfl, rfl, rfl, ?_, ?_⟩
  · show t0 * 1000 ≤ (t0 + dt) * 1000
    exact Nat.mul_le_mul_right 1000 (Nat.le_add_right t0 dt)
  · unfold run_res
    cases h : run_error page d <;> simp [h]

/-- C10: `run_signup` never raises on any user-data dictionary; a
dictionary missing the `firstName` key makes the very first access
raise `KeyError('firstName')`, which is caught and converted into a
failure result that still echoes the supplied entries and carries both
timestamps. -/
theorem run_signup_missing_key_caught (page : Page) (d : Dict) (headless : Bool) (t0 dt : Nat)
    (h : d.lookup "firstName" = none) :
    (run_signup page d headless t0 dt).2 = Except.ok
      { success := false
        error := some (exnStr (Exn.keyErr "firstName"))
        data := d
        init_time := t0 * 1000
        last_time := (t0 + dt) * 1000 } := by
  rw [run_signup_eq]
  simp [run_res, run_error, firstMissingKey, h]

theorem run_signup_missing_key_caught_witness :
    (run_signup bothMarkersPage [("lastName", "Ruiz")] true 3 5).2 = Except.ok
      { success := false
        error := some (exnStr (Exn.keyErr "firstName"))
        data := [("lastName", "Ruiz")]
        init_time := 3000
        last_time := 8000 } :=
  run_signup_missing_key_caught bothMarkersPage [("lastName", "Ruiz")] true 3 5 (by decide)

/-- C1: no run of the signup process, on any page, data, mode or
clock, ever clicks anything or addresses the submit controls
(`#signup-button`, the modal Sign-up button) with any element
operation: final account creation is never triggered. -/
theorem run_signup_never_submits (page : Page) (d : Dict) (headless : Bool) (t0 dt : Nat) :
    ∀ e ∈ (run_signup page d headless t0 dt).1,
      isClick e = false ∧
      evLoc e ≠ some CSS_SIGNUP_DIRECT ∧
      evLoc e ≠ some XPATH_SIGNUP_BTN_MODAL := by
  intro e he
  rw [run_signup_eq] at he
  have h := run_tr_ok page d headless e he
  cases e with
  | click k loc => exact absurd h (by simp [runEvOk])
  | printJson b err => exact absurd h (by simp [runEvOk])
  | findElement k loc =>
    have hf : loc ∈ fieldSelectors := by
      rcases List.mem_cons.mp h with rfl | h2
      · decide
      rcases List.mem_cons.mp h2 with rfl | h3
      · decide
      · cases h3
    have := fieldSelectors_not_submit loc hf
    exact ⟨rfl, by simpa [evLoc] using this.1, by simpa [evLoc] using this.2⟩
  | waitFor k loc =>
    have := fieldSelectors_not_submit loc h
    exact ⟨rfl, by simpa [evLoc] using this.1, by simpa [evLoc] using this.2⟩
  | clear k loc =>
    have := fieldSelectors_not_submit loc h
    exact ⟨rfl, by simpa [evLoc] using this.1, by simpa [evLoc] using this.2⟩
  | sendKeys k loc v =>
    have := fieldSelectors_not_submit loc h
    exact ⟨rfl, by simpa [evLoc] using this.1, by simpa [evLoc] using this.2⟩
  | getValue k loc =>
    have := fieldSelectors_not_submit loc h
    exact ⟨rfl, by simpa [evLoc] using this.1, by simpa [evLoc] using this.2⟩
  | selectByValue loc v =>
    have hf : loc ∈ fieldSelectors := by
      rcases List.mem_cons.mp h with rfl | h2
      · decide
      rcases List.mem_cons.mp h2 with rfl | h3
      · decide
      rcases List.mem_cons.mp h3 with rfl | h4
      · decide
      · cases h4
    have := fieldSelectors_not_submit loc hf
    exact ⟨rfl, by simpa [evLoc] using this.1, by simpa [evLoc] using this.2⟩
  | createDriver => exact ⟨rfl, by simp [evLoc], by simp [evLoc]⟩
  | navigate url => exact ⟨rfl, by simp [evLoc], by simp [evLoc]⟩
  | sleep => exact ⟨rfl, by simp [evLoc], by simp [evLoc]⟩
  | waitForInterrupt => exact ⟨rfl, by simp [evLoc], by simp [evLoc]⟩
  | quitDriver => exact ⟨rfl, by simp [evLoc], by simp [evLoc]⟩
  | print s => exact ⟨rfl, by simp [evLoc], by simp [evLoc]⟩

theorem run_signup_never_submits_witness :
    Ev.createDriver ∈ (run_signup bothMarkersPage anaData true 0 0).1 ∧
      isClick Ev.createDriver = false ∧
      evLoc Ev.createDriver ≠ some CSS_SIGNUP_DIRECT ∧
      evLoc Ev.createDriver ≠ some XPATH_SIGNUP_BTN_MODAL :=
  ⟨by decide,
   run_signup_never_submits bothMarkersPage anaData true 0 0 Ev.createDriver (by decide)⟩

/-- C2: on a page exposing neither layout marker (layout `UNKNOWN`),
a run over complete user data fails with the `Unknown form type` error
and performs zero field-fill attempts: its full trace holds only the
driver setup, the data prints, the navigation, the two detection
probes and the error report — no fill operation and no fill print. -/
theorem run_signup_unknown_form_type (page : Page) (d : Dict) (headless : Bool) (t0 dt : Nat)
    (fn ln em pw zp bd : String)
    (h1 : (LocKind.css, CSS_FIRST_NAME_DIRECT) ∉ page.present)
    (h2 : (LocKind.xpath, XPATH_FIRST_NAME_MODAL) ∉ page.present)
    (hfn : d.lookup "firstName" = some fn) (hln : d.lookup "lastName" = some ln)
    (hem : d.lookup "email" = some em) (hpw : d.lookup "password" = some pw)
    (hzp : d.lookup "zipCode" = some zp) (hbd : d.lookup "birthday" = some bd) :
    (run_signup page d headless t0 dt).2 = Except.ok (run_res page d t0 dt) ∧
    (run_res page d t0 dt).success = false ∧
    (run_res page d t0 dt).error = some "Unknown form type - could not detect form fields" ∧
    strContains "Unknown form type - could not detect form fields" "Unknown form type" = true ∧
    (run_signup page d headless t0 dt).1 =
      [Ev.createDriver, Ev.print "=== Starting Yelp Signup ===",
       Ev.print ("First Name: " ++ fn), Ev.print ("Last Name: " ++ ln),
       Ev.print ("Email: " ++ em), Ev.print ("Password: " ++ pw),
       Ev.print ("ZIP Code: " ++ zp), Ev.print ("Birthday: " ++ bd),
       Ev.navigate "https://www.yelp.com/signup", Ev.sleep,
       Ev.findElement LocKind.css CSS_FIRST_NAME_DIRECT,
       Ev.findElement LocKind.xpath XPATH_FIRST_NAME_MODAL,
       Ev.print "Form type detected: UNKNOWN",
       Ev.print "=== Error during signup ===",
       Ev.print "Error: Unknown form type - could not detect form fields"] ++
      (if headless then [Ev.quitDriver] else []) ∧
    (∀ e ∈ (run_signup page d headless t0 dt).1, isFieldFillEv e = false) := by
  have hu : detect_ret page = "UNKNOWN" := by
    unfold detect_ret
    rw [if_neg h1, if_neg h2]
  have htr : (run_signup page d headless t0 dt).1 =
      [Ev.createDriver, Ev.print "=== Starting Yelp Signup ===",
       Ev.print ("First Name: " ++ fn), Ev.print ("Last Name: " ++ ln),
       Ev.print ("Email: " ++ em), Ev.print ("Password: " ++ pw),
       Ev.print ("ZIP Code: " ++ zp), Ev.print ("Birthday: " ++ bd),
       Ev.navigate "https://www.yelp.com/signup", Ev.sleep,
       Ev.findElement LocKind.css CSS_FIRST_NAME_DIRECT,
       Ev.findElement LocKind.xpath XPATH_FIRST_NAME_MODAL,
       Ev.print "Form type detected: UNKNOWN",
       Ev.print "=== Error during signup ===",
       Ev.print "Error: Unknown form type - could not detect form fields"] ++
      (if headless then [Ev.quitDriver] else []) := by
    rw [run_signup_eq]
    show run_tr page d headless = _
    unfold run_tr detect_tr
    rw [hfn, hln, hem, hpw, hzp, hbd, if_neg h1, hu]
    cases headless <;> simp [err_tr, fin_tr, exnStr]
  refine ⟨by rw [run_signup_eq], ?_, ?_, by decide, htr, ?_⟩
  · simp [run_res, run_error, firstMissingKey, hfn, hln, hem, hpw, hzp, hbd, hu]
  · simp [run_res, run_error, firstMissingKey, hfn, hln, hem, hpw, hzp, hbd, hu]
  · intro e he
    rw [htr] at he
    rcases List.mem_append.mp he with he | he
    · fin_cases he <;> rfl
    · cases headless with
      | true =>
        rcases List.mem_cons.mp he with rfl | he
        · rfl
        · cases he
      | false => cases he

/-- Page without any recognised marker, for the unknown-form witness. -/
def emptyPage : Page := { present := [], broken := [], options := [] }

theorem run_signup_unknown_form_type_witness :
    (LocKind.css, CSS_FIRST_NAME_DIRECT) ∉ emptyPage.present ∧
      (run_signup emptyPage anaData true 3 5).2 = Except.ok (run_res emptyPage anaData 3 5) ∧
      (run_res emptyPage anaData 3 5).success = false :=
  have h := run_signup_unknown_form_type emptyPage anaData true 3 5
    "Ana" "Ruiz" "ana@x.com" "Pw12!" "10001" "05/10/1990"
    (by decide) (by decide) (by decide) (by decide) (by decide) (by decide) (by decide) (by decide)
  ⟨by decide, h.1, h.2.1⟩

/-- A Direct-layout page on which only the email field is missing
(birthday dropdowns absent: their failure is a warning, not a
per-field failure). -/
def emailMissingPage : Page :=
  { present := [(LocKind.css, CSS_FIRST_NAME_DIRECT), (LocKind.css, CSS_LAST_NAME_DIRECT),
                (LocKind.css, CSS_PASSWORD_DIRECT), (LocKind.css, CSS_ZIP_DIRECT)]
    broken := []
    options := [] }

/-- C4: each field fill is independent and best-effort: `fill_field`
never raises; on a missing element it returns `false` and reports the
failure with the field name; no field failure touches the run's
overall success flag (any run over complete data on a Direct-marker
page succeeds); and the worked instance — a Direct page where only
the email element is missing — still yields `success = true` with
exactly one per-field failure report, for Email. -/
theorem fill_field_best_effort (page : Page) (lt loc v nm : String) :
    (∃ b, (fill_field page lt loc v nm).2 = Except.ok b) ∧
    ((locKindOf lt, loc) ∉ page.present →
      (fill_field page lt loc v nm).2 = Except.ok false ∧
      Ev.print ("✗ Failed to fill " ++ nm ++ ": " ++ exnStr (Exn.timeoutErr (locKindOf lt) loc))
        ∈ (fill_field page lt loc v nm).1) ∧
    (∀ page2 d2 hl t0 dt, firstMissingKey d2 = none →
      (LocKind.css, CSS_FIRST_NAME_DIRECT) ∈ page2.present →
      ∃ r, (run_signup page2 d2 hl t0 dt).2 = Except.ok r ∧ r.success = true) ∧
    ((run_res emailMissingPage anaData 0 0).success = true ∧
      (run_signup emailMissingPage anaData true 0 0).2 =
        Except.ok (run_res emailMissingPage anaData 0 0) ∧
      failPrints (run_signup emailMissingPage anaData true 0 0).1 =
        ["✗ Failed to fill Email: " ++ exnStr (Exn.timeoutErr LocKind.css CSS_EMAIL_DIRECT)]) := by
  refine ⟨⟨ff_ret page (locKindOf lt) loc, by rw [fill_field_eq]⟩, fun h => ⟨?_, ?_⟩, ?_, ?_, ?_, ?_⟩
  · rw [fill_field_eq]
    simp [ff_ret, h]
  · rw [fill_field_eq]
    unfold ff_tr
    rw [if_neg h]
    simp
  · intro page2 d2 hl t0 dt hk hm
    exact ⟨run_res page2 d2 t0 dt, (run_direct_success page2 d2 hl t0 dt hk hm).1,
      (run_direct_success page2 d2 hl t0 dt hk hm).2⟩
  · decide
  · rw [run_signup_eq]
  · decide

theorem fill_field_best_effort_witness :
    (LocKind.css, "#email") ∉ emptyPage.present ∧
      (fill_field emptyPage "css" "#email" "ana@x.com" "Email").2 = Except.ok false ∧
      Ev.print ("✗ Failed to fill Email: " ++ exnStr (Exn.timeoutErr (locKindOf "css") "#email"))
        ∈ (fill_field emptyPage "css" "#email" "ana@x.com" "Email").1 :=
  ⟨by decide,
   ((fill_field_best_effort emptyPage "css" "#email" "ana@x.com" "Email").2.1 (by decide)).1,
   ((fill_field_best_effort emptyPage "css" "#email" "ana@x.com" "Email").2.1 (by decide)).2⟩

theorem splitSlashAux_no_slash (l : List Char) (h : '/' ∉ l) : splitSlashAux l = (l, []) := by
  induction l with
  | nil => rfl
  | cons c cs ih =>
    have hc : ¬(c = '/') := fun hq => h (hq ▸ List.mem_cons_self c cs)
    have h' : '/' ∉ cs := fun hmem => h (List.mem_cons_of_mem c hmem)
    simp [splitSlashAux, ih h', hc]

theorem splitSlashAux_append (l r : List Char) (h : '/' ∉ l) :
    splitSlashAux (l ++ '/' :: r) = (l, (splitSlashAux r).1 :: (splitSlashAux r).2) := by
  induction l with
  | nil => simp [splitSlashAux]
  | cons c cs ih =>
    have hc : ¬(c = '/') := fun hq => h (hq ▸ List.mem_cons_self c cs)
    have h' : '/' ∉ cs := fun hmem => h (List.mem_cons_of_mem c hmem)
    simp [splitSlashAux, ih h', hc]

theorem pySplit_three (m d y : String)
    (hm : '/' ∉ m.data) (hd : '/' ∉ d.data) (hy : '/' ∉ y.data) :
    pySplit (m ++ "/" ++ d ++ "/" ++ y) = [m, d, y] := by
  unfold pySplit
  have hdata : (m ++ "/" ++ d ++ "/" ++ y).data = m.data ++ '/' :: (d.data ++ '/' :: y.data) := by
    simp [String.data_append]
  rw [hdata, splitSlashAux_append _ _ hm, splitSlashAux_append _ _ hd,
    splitSlashAux_no_slash _ hy]
  rfl

/-- C5: on a valid `MM/DD/YYYY` birthday the filler splits the string
on `/` into exactly the three parts, and — the three dropdowns being
present with matching options — performs exactly one selection per
dropdown, each by the literal part; moreover `fill_birthday` never
raises on any page or string (failures end as a caught warning), and
its outcome never touches the run's overall success flag (a run over
complete data on a Direct-marker page succeeds whatever the birthday
dropdowns hold). -/
theorem fill_birthday_valid_mmddyyyy (m d y : String) (page : Page)
    (hm2 : m.data.length = 2) (hd2 : d.data.length = 2) (hy4 : y.data.length = 4)
    (hmd : ∀ c ∈ m.data, c.isDigit) (hdd : ∀ c ∈ d.data, c.isDigit)
    (hyd : ∀ c ∈ y.data, c.isDigit)
    (hp1 : (LocKind.css, CSS_MONTH_SELECT) ∈ page.present)
    (hp2 : (LocKind.css, CSS_DAY_SELECT) ∈ page.present)
    (hp3 : (LocKind.css, CSS_YEAR_SELECT) ∈ page.present)
    (o1 o2 o3 : List String)
    (ho1 : page.options.lookup CSS_MONTH_SELECT = some o1) (hv1 : m ∈ o1)
    (ho2 : page.options.lookup CSS_DAY_SELECT = some o2) (hv2 : d ∈ o2)
    (ho3 : page.options.lookup CSS_YEAR_SELECT = some o3) (hv3 : y ∈ o3) :
    pySplit (m ++ "/" ++ d ++ "/" ++ y) = [m, d, y] ∧
    (fill_birthday page (m ++ "/" ++ d ++ "/" ++ y)).2 = Except.ok true ∧
    selections (fill_birthday page (m ++ "/" ++ d ++ "/" ++ y)).1 =
      [(CSS_MONTH_SELECT, m), (CSS_DAY_SELECT, d), (CSS_YEAR_SELECT, y)] ∧
    (∀ page2 b, ∃ res, (fill_birthday page2 b).2 = Except.ok res) ∧
    (∀ page2 d2 hl t0 dt, firstMissingKey d2 = none →
      (LocKind.css, CSS_FIRST_NAME_DIRECT) ∈ page2.present →
      ∃ r, (run_signup page2 d2 hl t0 dt).2 = Except.ok r ∧ r.success = true) := by
  have noslash : ∀ (s : String), (∀ c ∈ s.data, c.isDigit) → '/' ∉ s.data := by
    intro s hs hmem
    have := hs '/' hmem
    simp [Char.isDigit] at this
  have hs := pySplit_three m d y (noslash m hmd) (noslash d hdd) (noslash y hyd)
  have r1 : sd_res page CSS_MONTH_SELECT m = Except.ok () := by
    simp [sd_res, hp1, ho1, hv1]
  have r2 : sd_res page CSS_DAY_SELECT d = Except.ok () := by
    simp [sd_res, hp2, ho2, hv2]
  have r3 : sd_res page CSS_YEAR_SELECT y = Except.ok () := by
    simp [sd_res, hp3, ho3, hv3]
  refine ⟨hs, ?_, ?_, ?_, ?_⟩
  · rw [fill_birthday_eq]
    simp only [fb_ret, hs, r1, r2, r3]
  · rw [fill_birthday_eq]
    simp only [fb_tr, hs, r1, r2, r3]
    simp [selections, sd_tr, hp1, hp2, hp3, ho1, ho2, ho3]
  · intro page2 b
    rw [fill_birthday_eq]
    exact ⟨fb_ret page2 b, rfl⟩
  · intro page2 d2 hl t0 dt hk hm2
    exact ⟨run_res page2 d2 t0 dt, (run_direct_success page2 d2 hl t0 dt hk hm2).1,
      (run_direct_success page2 d2 hl t0 dt hk hm2).2⟩

/-- A page holding the three birthday dropdowns with the values of the
worked example. -/
def stockedSelectPage : Page :=
  { present := [(LocKind.css, CSS_MONTH_SELECT), (LocKind.css, CSS_DAY_SELECT),
                (LocKind.css, CSS_YEAR_SELECT)]
    broken := []
    options := [(CSS_MONTH_SELECT, ["05"]), (CSS_DAY_SELECT, ["10"]),
                (CSS_YEAR_SELECT, ["1990"])] }

theorem fill_birthday_valid_mmddyyyy_witness :
    pySplit ("05" ++ "/" ++ "10" ++ "/" ++ "1990") = ["05", "10", "1990"] ∧
      (fill_birthday stockedSelectPage ("05" ++ "/" ++ "10" ++ "/" ++ "1990")).2 = Except.ok true ∧
      selections (fill_birthday stockedSelectPage ("05" ++ "/" ++ "10" ++ "/" ++ "1990")).1 =
        [(CSS_MONTH_SELECT, "05"), (CSS_DAY_SELECT, "10"), (CSS_YEAR_SELECT, "1990")] :=
  have h := fill_birthday_valid_mmddyyyy "05" "10" "1990" stockedSelectPage
    (by decide) (by decide) (by decide) (by decide) (by decide) (by decide)
    (by decide) (by decide) (by decide)
    ["05"] ["10"] ["1990"] (by decide) (by decide) (by decide) (by decide) (by decide) (by decide)
  ⟨h.1, h.2.1, h.2.2.1⟩

theorem py_randint_mem (a b n : Nat) (h : a ≤ b) :
    a ≤ py_randint a b n ∧ py_randint a b n ≤ b := by
  unfold py_randint
  have hlt : n % (b + 1 - a) < b + 1 - a := Nat.mod_lt _ (by omega)
  omega

/-- C6: every UserData the random generator produces has an age
between 18 and 65 (`current year − birth year`), a day between 1 and
28, an email of the exact shape `first.last` + 3-digit number + `@` +
provider (names lowercased), and a password `Pass` + 4-digit number +
`!`. -/
theorem generate_random_user_data_spec (files : Files) (rng : Rng) (year : Int)
    (h1 : files.names ≠ []) (h2 : files.lastnames ≠ [])
    (h3 : files.mailproviders ≠ []) (h4 : files.uszips ≠ []) :
    ∃ (fn ln prov zp : String) (n3 n4 age mo dy : Nat),
      (generate_random_user_data files rng year).2 = Except.ok
        [("firstName", fn), ("lastName", ln),
         ("email", fn.toLower ++ "." ++ ln.toLower ++ toString n3 ++ "@" ++ prov),
         ("password", "Pass" ++ toString n4 ++ "!"),
         ("zipCode", zp),
         ("birthday", zfill2 (toString mo) ++ "/" ++ zfill2 (toString dy) ++ "/" ++
           toString (year - (age : Int)))] ∧
      fn ∈ files.names ∧ ln ∈ files.lastnames ∧ prov ∈ files.mailproviders ∧
      zp ∈ files.uszips ∧
      100 ≤ n3 ∧ n3 ≤ 999 ∧ 1000 ≤ n4 ∧ n4 ≤ 9999 ∧
      1 ≤ mo ∧ mo ≤ 12 ∧ 1 ≤ dy ∧ dy ≤ 28 ∧
      18 ≤ year - (year - (age : Int)) ∧ year - (year - (age : Int)) ≤ 65 := by
  have e1 : ¬(files.names.length = 0) := fun h => h1 (List.length_eq_zero.mp h)
  have e2 : ¬(files.lastnames.length = 0) := fun h => h2 (List.length_eq_zero.mp h)
  have e3 : ¬(files.mailproviders.length = 0) := fun h => h3 (List.length_eq_zero.mp h)
  have e4 : ¬(files.uszips.length = 0) := fun h => h4 (List.length_eq_zero.mp h)
  refine ⟨files.names.get ⟨rng.iFirst % files.names.length, Nat.mod_lt _ (Nat.pos_of_ne_zero e1)⟩,
    files.lastnames.get ⟨rng.iLast % files.lastnames.length, Nat.mod_lt _ (Nat.pos_of_ne_zero e2)⟩,
    files.mailproviders.get ⟨rng.iProv % files.mailproviders.length, Nat.mod_lt _ (Nat.pos_of_ne_zero e3)⟩,
    files.uszips.get ⟨rng.iZip % files.uszips.length, Nat.mod_lt _ (Nat.pos_of_ne_zero e4)⟩,
    py_randint 100 999 rng.nEmail, py_randint 1000 9999 rng.nPass,
    py_randint 18 65 rng.nAge, py_randint 1 12 rng.nMonth, py_randint 1 28 rng.nDay,
    ?_, List.get_mem _ _ _, List.get_mem _ _ _, List.get_mem _ _ _, List.get_mem _ _ _,
    (py_randint_mem 100 999 rng.nEmail (by omega)).1,
    (py_randint_mem 100 999 rng.nEmail (by omega)).2,
    (py_randint_mem 1000 9999 rng.nPass (by omega)).1,
    (py_randint_mem 1000 9999 rng.nPass (by omega)).2,
    (py_randint_mem 1 12 rng.nMonth (by omega)).1,
    (py_randint_mem 1 12 rng.nMonth (by omega)).2,
    (py_randint_mem 1 28 rng.nDay (by omega)).1,
    (py_randint_mem 1 28 rng.nDay (by omega)).2,
    ?_, ?_⟩
  · unfold generate_random_user_data py_choice
    rw [dif_neg e1, dif_neg e2, dif_neg e3, dif_neg e4]
    rfl
  · have := (py_randint_mem 18 65 rng.nAge (by omega)).1
    omega
  · have := (py_randint_mem 18 65 rng.nAge (by omega)).2
    omega

/-- The word lists and draws of the generator witness. -/
def wordFiles : Files :=
  { names := ["Ana"], lastnames := ["Ruiz"], mailproviders := ["gmail.com"],
    uszips := ["10001"] }

/-- One concrete set of random draws for the generator witness. -/
def oneDraws : Rng :=
  { iFirst := 0, iLast := 0, iProv := 0, iZip := 0, nEmail := 5, nPass := 7,
    nAge := 10, nMonth := 3, nDay := 2 }

theorem generate_random_user_data_spec_witness :
    ∃ (fn ln prov zp : String) (n3 n4 age mo dy : Nat),
      (generate_random_user_data wordFiles oneDraws 2026).2 = Except.ok
        [("firstName", fn), ("lastName", ln),
         ("email", fn.toLower ++ "." ++ ln.toLower ++ toString n3 ++ "@" ++ prov),
         ("password", "Pass" ++ toString n4 ++ "!"),
         ("zipCode", zp),
         ("birthday", zfill2 (toString mo) ++ "/" ++ zfill2 (toString dy) ++ "/" ++
           toString ((2026 : Int) - (age : Int)))] ∧
      fn ∈ wordFiles.names ∧ ln ∈ wordFiles.lastnames ∧ prov ∈ wordFiles.mailproviders ∧
      zp ∈ wordFiles.uszips ∧
      100 ≤ n3 ∧ n3 ≤ 999 ∧ 1000 ≤ n4 ∧ n4 ≤ 9999 ∧
      1 ≤ mo ∧ mo ≤ 12 ∧ 1 ≤ dy ∧ dy ≤ 28 ∧
      18 ≤ (2026 : Int) - ((2026 : Int) - (age : Int)) ∧
      (2026 : Int) - ((2026 : Int) - (age : Int)) ≤ 65 :=
  generate_random_user_data_spec wordFiles oneDraws 2026
    (by decide) (by decide) (by decide) (by decide)

theorem run_and_report_eq (env : Env) (d : Dict) (hl : Bool) (t0 dt : Nat) :
    run_and_report env d hl t0 dt =
      (run_tr env.page d hl ++
        [Ev.print "\n=== RESULT ===",
         Ev.printJson (run_res env.page d t0 dt).success (run_res env.page d t0 dt).error],
       Except.ok (if (run_res env.page d t0 dt).success then 0 else 1, true)) := by
  unfold run_and_report
  rw [bind_eq_mbind, run_signup_eq]
  simp [mbind, mpure, emit, pyPrint]

theorem jsonOuts_append (l1 l2 : List Ev) :
    jsonOuts (l1 ++ l2) = jsonOuts l1 ++ jsonOuts l2 := by
  unfold jsonOuts
  rw [List.filterMap_append]

theorem stdoutOf_append (l1 l2 : List Ev) :
    stdoutOf (l1 ++ l2) = stdoutOf l1 ++ stdoutOf l2 := by
  unfold stdoutOf
  rw [List.filterMap_append]

theorem c8_run_path (env : Env) (d : Dict) (hl : Bool) (t0 dt : Nat)
    (tr : List Ev) (code : Nat)
    (h : (tr, code) =
      ((run_and_report env d hl t0 dt).1 ++ (if hl && true then [Ev.quitDriver] else []),
       if (run_res env.page d t0 dt).success then 0 else 1)) :
    ∃ b err,
      jsonOuts tr = [(b, err)] ∧
      (stdoutOf tr).getLast? = some (StdoutItem.json b err) ∧
      (code = 0 ↔ b = true) ∧
      (code = 0 ∨ code = 1) := by
  have htr : tr = (run_and_report env d hl t0 dt).1 ++ (if hl && true then [Ev.quitDriver] else []) :=
    congrArg Prod.fst h
  have hc : code = if (run_res env.page d t0 dt).success then 0 else 1 :=
    congrArg Prod.snd h
  refine ⟨(run_res env.page d t0 dt).success, (run_res env.page d t0 dt).error, ?_, ?_, ?_, ?_⟩
  · rw [htr, run_and_report_eq]
    rw [jsonOuts_append, jsonOuts_append, jsonOuts_run_tr]
    cases hl <;> rfl
  · rw [htr, run_and_report_eq]
    rw [stdoutOf_append, stdoutOf_append]
    have hfin : stdoutOf (if hl && true then [Ev.quitDriver] else []) = [] := by
      cases hl <;> rfl
    rw [hfin, List.append_nil]
    show ((stdoutOf (run_tr env.page d hl)) ++
      (StdoutItem.line "\n=== RESULT ===" ::
        [StdoutItem.json (run_res env.page d t0 dt).success (run_res env.page d t0 dt).error])).getLast? = _
    rw [List.getLast?_append_cons]
    rfl
  · rw [hc]
    cases (run_res env.page d t0 dt).success <;> simp
  · rw [hc]
    cases (run_res env.page d t0 dt).success <;> simp

/-- C8: the process exits with code 0 exactly when the result's
success flag is true and with code 1 on any failure — missing `--data`
in manual mode, a malformed JSON payload, a failure while generating
data, or a failed run — and in every case exactly one structured JSON
result object is written to standard output, as the final output. -/
theorem main_exit_code_and_final_json (env : Env) (args : Args) (t0 dt : Nat) :
    ∃ b err,
      jsonOuts (main_run env args t0 dt).1 = [(b, err)] ∧
      (stdoutOf (main_run env args t0 dt).1).getLast? = some (StdoutItem.json b err) ∧
      ((main_run env args t0 dt).2 = 0 ↔ b = true) ∧
      ((main_run env args t0 dt).2 = 0 ∨ (main_run env args t0 dt).2 = 1) := by
  rcases args with ⟨mode, data, hl⟩
  cases mode with
  | manual =>
    cases data with
    | none =>
      have hb : main_run env ⟨Mode.manual, none, hl⟩ t0 dt =
          ([Ev.printJson false (some "Manual mode requires --data argument with user data")], 1) := by
        unfold main_run main_body
        cases hl <;> simp [mtry, mbind, emit, mpure]
      exact ⟨false, some "Manual mode requires --data argument with user data",
        by rw [hb]; rfl, by rw [hb]; rfl, by rw [hb]; simp, by rw [hb]; simp⟩
    | some s =>
      cases hp : env.jsonParse s with
      | error msg =>
        have hb : main_run env ⟨Mode.manual, some s, hl⟩ t0 dt =
            ([Ev.printJson false (some msg)], 1) := by
          unfold main_run main_body
          cases hl <;> simp [pyJsonLoads, hp, mtry, mbind, mthrow, emit, mpure, exnStr]
        exact ⟨false, some msg,
          by rw [hb]; rfl, by rw [hb]; rfl, by rw [hb]; simp, by rw [hb]; simp⟩
      | ok d =>
        have hb : main_run env ⟨Mode.manual, some s, hl⟩ t0 dt =
            ((run_and_report env d hl t0 dt).1 ++ (if hl && true then [Ev.quitDriver] else []),
             if (run_res env.page d t0 dt).success then 0 else 1) := by
          unfold main_run main_body
          rw [run_and_report_eq]
          simp [pyJsonLoads, hp, mtry, mbind, mpure, run_and_report_eq]
        exact c8_run_path env d hl t0 dt _ _ (by rw [← hb])
  | automatic =>
    rcases hg : generate_random_user_data env.files env.rng env.current_year with ⟨gt, gr⟩
    have hgt : gt = [] := by
      have h0 := generate_tr_nil env.files env.rng env.current_year
      rw [hg] at h0
      exact h0
    subst hgt
    cases gr with
    | error e =>
      have hb : main_run env ⟨Mode.automatic, data, hl⟩ t0 dt =
          ([Ev.printJson false (some (exnStr e))], 1) := by
        unfold main_run main_body
        cases hl <;> simp [hg, mtry, mbind, mthrow, emit, mpure]
      exact ⟨false, some (exnStr e),
        by rw [hb]; rfl, by rw [hb]; rfl, by rw [hb]; simp, by rw [hb]; simp⟩
    | ok d =>
      have hb : main_run env ⟨Mode.automatic, data, hl⟩ t0 dt =
          ((run_and_report env d hl t0 dt).1 ++ (if hl && true then [Ev.quitDriver] else []),
           if (run_res env.page d t0 dt).success then 0 else 1) := by
        unfold main_run main_body
        rw [run_and_report_eq]
        simp [hg, mtry, mbind, mpure, run_and_report_eq]
      exact c8_run_path env d hl t0 dt _ _ (by rw [← hb])

/-- A Direct-layout page with all five text fields present, used to
exercise the non-headless review path. -/
def reviewPage : Page :=
  { present := [(LocKind.css, CSS_FIRST_NAME_DIRECT), (LocKind.css, CSS_LAST_NAME_DIRECT),
                (LocKind.css, CSS_EMAIL_DIRECT), (LocKind.css, CSS_PASSWORD_DIRECT),
                (LocKind.css, CSS_ZIP_DIRECT)]
    broken := []
    options := [] }

/-- C9: a headless run tears its browser session down (its trace ends
in the driver quit), but a non-headless run that reaches the
field-filled state blocks for the external interrupt, prints
`Closing browser...` — and then returns without ever quitting the
driver: no session teardown happens in non-headless mode, contrary to
the printed message and the specified intent. -/
theorem run_signup_interrupt_no_teardown :
    (run_signup reviewPage anaData true 0 5).1.getLast? = some Ev.quitDriver ∧
    Ev.waitForInterrupt ∉ (run_signup reviewPage anaData true 0 5).1 ∧
    Ev.waitForInterrupt ∈ (run_signup reviewPage anaData false 0 5).1 ∧
    Ev.print "\nClosing browser..." ∈ (run_signup reviewPage anaData false 0 5).1 ∧
    Ev.quitDriver ∉ (run_signup reviewPage anaData false 0 5).1 ∧
    (run_signup reviewPage anaData false 0 5).2 =
      Except.ok (run_res reviewPage anaData 0 5) ∧
    (run_res reviewPage anaData 0 5).success = true := by
  refine ⟨by decide, by decide, by decide, by decide, by decide, by rw [run_signup_eq], by decide⟩
